import Mathlib

/-!
Verification development for the mousa-api music-streaming backend.

Each section shallowly embeds the relevant JavaScript route handlers,
Mongoose models and middleware as executable Lean definitions over explicit
document-store states, and proves (or refutes) the frozen claims about them.
-/

set_option maxHeartbeats 1000000

namespace Mousa

/-- An HTTP-style response: status code plus body message. -/
structure Resp where
  status : Nat
  msg : String
  deriving DecidableEq, Repr

/-! ### C1: subscription-gated exclusive-content access

Embedding of `canAccessContent` (src/src/models/UserSubscription.js, lines
87-91) and the `checkSubscriptionAccess` middleware
(src/src/routes/exclusive-content.js, lines 40-91).
-/

/-- A `UserSubscription` document (src/src/models/UserSubscription.js).
Fields not consulted by the claims (payment data, timestamps, autoRenew,
renewal attempts, cancel reason) are omitted. Times are integers. -/
structure UserSubscription where
  id : Nat
  user : Nat
  artist : Nat
  tier : Nat
  status : String
  currentPeriodEnd : Int
  deriving DecidableEq, Repr

/-- An `ExclusiveContent` document, restricted to its gating fields. -/
structure ExclusiveContent where
  artist : Nat
  isPublic : Bool
  minimumTierRequired : Option Nat
  deriving DecidableEq, Repr

/-- `userSubscriptionSchema.methods.canAccessContent`: even canceled
subscriptions can access content until the end of the period. -/
def canAccessContent (now : Int) (s : UserSubscription) : Bool :=
  (s.status == "active" || s.status == "canceled") &&
    decide (now ≤ s.currentPeriodEnd)

/-- `UserSubscription.findOne({user, artist, status})`. -/
def findSubscription (subs : List UserSubscription) (userId artistId : Nat)
    (status : String) : Option UserSubscription :=
  subs.find? fun s =>
    s.user == userId && s.artist == artistId && s.status == status

/-- The `checkSubscriptionAccess` middleware for an authenticated caller and
an existing content document: returns `true` iff the middleware calls
`next()` (access granted).  Note the database query filters on
`status: 'active'` before `canAccessContent` is ever consulted. -/
def checkSubscriptionAccess (now : Int) (subs : List UserSubscription)
    (callerId : Nat) (content : ExclusiveContent) : Bool :=
  if content.isPublic then
    true
  else
    match findSubscription subs callerId content.artist "active" with
    | none => false
    | some subscription =>
      if !canAccessContent now subscription then
        false
      else
        match content.minimumTierRequired with
        | some minTier => subscription.tier == minTier
        | none => true

/-- The gate predicate exactly as the specification words it (claim C1):
public, or a subscription to the content's artist with status active or
canceled, not past `currentPeriodEnd`, whose tier matches the content's
`minimumTierRequired` when one is set. -/
def specGatePredicate (now : Int) (subs : List UserSubscription)
    (callerId : Nat) (content : ExclusiveContent) : Bool :=
  content.isPublic ||
    subs.any fun s =>
      s.user == callerId && s.artist == content.artist &&
      (s.status == "active" || s.status == "canceled") &&
      decide (now ≤ s.currentPeriodEnd) &&
      (match content.minimumTierRequired with
       | some minTier => s.tier == minTier
       | none => true)

/-- The failing input for C1: caller 10 holds a canceled subscription to
artist 20 whose period ends at time 100, and requests non-public content of
artist 20 at time 50. -/
def c1Sub : UserSubscription :=
  { id := 1, user := 10, artist := 20, tier := 30
    status := "canceled", currentPeriodEnd := 100 }

/-- The non-public, tier-unrestricted content item of artist 20. -/
def c1Content : ExclusiveContent :=
  { artist := 20, isPublic := false, minimumTierRequired := none }

/-! ### Follows routes (src/src/routes/follows.js): claims C9 and C2

The user document embeds its following lists and (on this route) its
subscription sub-documents; artists carry the counters the handlers
increment. -/

/-- A subscription sub-document embedded in a user (follows.js, line 143). -/
structure EmbeddedSub where
  artist : Nat
  price : Int
  status : String
  deriving DecidableEq, Repr

/-- The slice of a `User` document consulted by the follow handlers. -/
structure FollowUserDoc where
  id : Nat
  followingUsers : List Nat
  followingArtists : List Nat
  subscriptions : List EmbeddedSub
  followerCount : Int
  deriving DecidableEq, Repr

/-- The slice of an `Artist` document consulted by the follow handlers.
`subscriptionPrice` is optional (`artist.subscriptionPrice || 4.99`);
prices are in cents. -/
structure FollowArtistDoc where
  id : Nat
  followerCount : Int
  subscriberCount : Int
  subscriptionPrice : Option Int
  deriving DecidableEq, Repr

/-- The document-store state the follows router reads and writes. -/
structure FollowsState where
  users : List FollowUserDoc
  artists : List FollowArtistDoc
  deriving DecidableEq, Repr

/-- `User.findById`. -/
def findFollowUser (users : List FollowUserDoc) (i : Nat) :
    Option FollowUserDoc :=
  users.find? fun u => u.id == i

/-- `Artist.findById`. -/
def findFollowArtist (artists : List FollowArtistDoc) (i : Nat) :
    Option FollowArtistDoc :=
  artists.find? fun a => a.id == i

/-- `user.save()`: replace the stored document carrying this user's id. -/
def saveFollowUser (users : List FollowUserDoc) (u : FollowUserDoc) :
    List FollowUserDoc :=
  users.map fun v => if v.id == u.id then u else v

/-- `User.findByIdAndUpdate(i, {$inc: {followerCount: d}})`: a no-op when
no document has that id. -/
def incUserFollowerCount (users : List FollowUserDoc) (i : Nat) (d : Int) :
    List FollowUserDoc :=
  users.map fun v =>
    if v.id == i then { v with followerCount := v.followerCount + d } else v

/-- `Artist.findByIdAndUpdate(i, {$inc: {followerCount: d}})`. -/
def incArtistFollowerCount (artists : List FollowArtistDoc) (i : Nat)
    (d : Int) : List FollowArtistDoc :=
  artists.map fun a =>
    if a.id == i then { a with followerCount := a.followerCount + d } else a

/-- `Artist.findByIdAndUpdate(i, {$inc: {subscriberCount: d}})`. -/
def incArtistSubscriberCount (artists : List FollowArtistDoc) (i : Nat)
    (d : Int) : List FollowArtistDoc :=
  artists.map fun a =>
    if a.id == i then { a with subscriberCount := a.subscriberCount + d }
    else a

/-- `DELETE /users/:userId` (follows.js, lines 43-65).  When the caller was
not following the target the handler skips the mutation block and still
responds 200 with a success message. -/
def unfollowUser (st : FollowsState) (callerId targetId : Nat) :
    Resp × FollowsState :=
  match findFollowUser st.users callerId with
  | none => (⟨500, "Server error"⟩, st)
  | some user =>
    let wasFollowing := user.followingUsers.contains targetId
    if wasFollowing then
      let user' :=
        { user with
          followingUsers := user.followingUsers.filter fun i => !(i == targetId) }
      let users' := saveFollowUser st.users user'
      let users'' := incUserFollowerCount users' targetId (-1)
      (⟨200, "Successfully unfollowed user"⟩, { st with users := users'' })
    else
      (⟨200, "Successfully unfollowed user"⟩, st)

/-- `DELETE /artists/:artistId` (follows.js, lines 98-120). -/
def unfollowArtist (st : FollowsState) (callerId artistId : Nat) :
    Resp × FollowsState :=
  match findFollowUser st.users callerId with
  | none => (⟨500, "Server error"⟩, st)
  | some user =>
    let wasFollowing := user.followingArtists.contains artistId
    if wasFollowing then
      let user' :=
        { user with
          followingArtists :=
            user.followingArtists.filter fun i => !(i == artistId) }
      let users' := saveFollowUser st.users user'
      let artists' := incArtistFollowerCount st.artists artistId (-1)
      (⟨200, "Successfully unfollowed artist"⟩,
        { users := users', artists := artists' })
    else
      (⟨200, "Successfully unfollowed artist"⟩, st)

/-- `POST /subscribe/artists/:artistId` (follows.js, lines 123-179).  The
two persisted writes (the user save carrying the pushed subscription, and
the artist counter increment) run inside one transaction; the booleans
model each write failing, in which case the transaction aborts and nothing
is persisted. -/
def subscribeArtistFollows (st : FollowsState) (callerId artistId : Nat)
    (bodyPrice : Option Int) (failUserSave failArtistInc : Bool) :
    Resp × FollowsState :=
  match findFollowArtist st.artists artistId with
  | none => (⟨404, "Artist not found"⟩, st)
  | some artist =>
    match findFollowUser st.users callerId with
    | none => (⟨500, "Server error"⟩, st)
    | some user =>
      if user.subscriptions.any
          (fun sub => sub.artist == artistId && sub.status == "active") then
        (⟨400, "Already subscribed to this artist"⟩, st)
      else
        let newSub : EmbeddedSub :=
          { artist := artistId
            price := (bodyPrice.getD (artist.subscriptionPrice.getD 499))
            status := "active" }
        if failUserSave || failArtistInc then
          -- session.abortTransaction(): neither write is persisted
          (⟨500, "Server error"⟩, st)
        else
          let user' :=
            { user with subscriptions := user.subscriptions ++ [newSub] }
          (⟨200, "Successfully subscribed to artist"⟩,
            { users := saveFollowUser st.users user'
              artists := incArtistSubscriberCount st.artists artistId 1 })

/-- Concrete follows-state for counterexamples and witnesses: user 1
follows nobody; user 2 and artist 3 exist with positive counters. -/
def c9State : FollowsState :=
  { users :=
      [ { id := 1, followingUsers := [], followingArtists := []
          subscriptions := [], followerCount := 0 }
      , { id := 2, followingUsers := [], followingArtists := []
          subscriptions := [], followerCount := 5 } ]
    artists :=
      [ { id := 3, followerCount := 7, subscriberCount := 2
          subscriptionPrice := some 299 } ] }

/-! ### Subscription tiers (src/unnamed/part_009 and
src/src/models/SubscriptionTier.js): claim C5 -/

/-- A `SubscriptionTier` document.  Prices are in cents (the schema bounds
0.99-99.99 dollars become 99-9999); `features`, `description` and
`isRecommended` are omitted as no claim consults them. -/
structure TierDoc where
  id : Nat
  artist : Nat
  name : String
  price : Int
  order : Nat
  active : Bool
  deriving DecidableEq, Repr

/-- The slice of an `Artist` document the tier routes consult. -/
structure TierArtistDoc where
  id : Nat
  members : List Nat
  acceptsSubscriptions : Bool
  hasCustomSubscriptionTiers : Bool
  deriving DecidableEq, Repr

/-- The document-store state of the tier router. -/
structure TierState where
  tiers : List TierDoc
  artists : List TierArtistDoc
  deriving DecidableEq, Repr

/-- `SubscriptionTier.findById`. -/
def findTier (tiers : List TierDoc) (i : Nat) : Option TierDoc :=
  tiers.find? fun t => t.id == i

/-- `Artist.findById` on the tier router. -/
def findTierArtist (artists : List TierArtistDoc) (i : Nat) :
    Option TierArtistDoc :=
  artists.find? fun a => a.id == i

/-- `SubscriptionTier.countDocuments({artist, active: true})`, also the
model's `countArtistTiers`. -/
def countActiveTiers (tiers : List TierDoc) (artistId : Nat) : Nat :=
  (tiers.filter fun t => t.artist == artistId && t.active).length

/-- The request body of `POST /` on the tier router. -/
structure CreateTierBody where
  artist : Nat
  name : String
  price : Int
  order : Option Nat
  deriving DecidableEq, Repr

/-- `POST /` (part_009, lines 74-130), including the
`verifyArtistOwnership` middleware and the schema's `pre('save')`
three-tier guard re-checked on new documents. -/
def createTier (st : TierState) (callerId : Nat) (isAdmin : Bool)
    (body : CreateTierBody) (newId : Nat) : Resp × TierState :=
  match findTierArtist st.artists body.artist with
  | none => (⟨404, "Artist not found"⟩, st)
  | some _artist =>
    if !(_artist.members.contains callerId) && !isAdmin then
      (⟨403, "Not authorized to manage this artist"⟩, st)
    else if body.price < 99 || body.price > 9999 then
      (⟨400, "Price must be between 0.99 and 99.99"⟩, st)
    else
      let existingTierCount := countActiveTiers st.tiers body.artist
      if existingTierCount ≥ 3 then
        (⟨400, "Artist already has the maximum number of tiers (3)"⟩, st)
      else if countActiveTiers st.tiers body.artist ≥ 3 then
        -- the pre-save hook would reject here; unreachable after the
        -- route's own check, mapped to the route's catch-all 500
        (⟨500, "Server error"⟩, st)
      else
        let newTier : TierDoc :=
          { id := newId, artist := body.artist, name := body.name
            price := body.price
            order := body.order.getD (existingTierCount + 1)
            active := true }
        (⟨201, "Created"⟩,
          { tiers := st.tiers ++ [newTier]
            artists := st.artists.map fun a =>
              if a.id == body.artist then
                { a with acceptsSubscriptions := true
                         hasCustomSubscriptionTiers := true }
              else a })

/-- `DELETE /:id` (part_009, lines 186-228): soft delete by clearing
`active`; the document is kept. -/
def deleteTier (st : TierState) (callerId : Nat) (isAdmin : Bool)
    (tierId : Nat) : Resp × TierState :=
  match findTier st.tiers tierId with
  | none => (⟨404, "Subscription tier not found"⟩, st)
  | some tier =>
    match findTierArtist st.artists tier.artist with
    | none => (⟨500, "Server error"⟩, st)
    | some _artist =>
      if !(_artist.members.contains callerId) && !isAdmin then
        (⟨403, "Not authorized to delete this tier"⟩, st)
      else
        let tiers' := st.tiers.map fun t =>
          if t.id == tierId then { t with active := false } else t
        let artists' :=
          if countActiveTiers tiers' tier.artist == 0 then
            st.artists.map fun a =>
              if a.id == tier.artist then
                { a with hasCustomSubscriptionTiers := false }
              else a
          else st.artists
        (⟨200, "Subscription tier deleted"⟩,
          { tiers := tiers', artists := artists' })

/-- Insertion into a list sorted ascending by `order`. -/
def insertByOrder (t : TierDoc) : List TierDoc → List TierDoc
  | [] => [t]
  | h :: rest =>
    if t.order ≤ h.order then t :: h :: rest else h :: insertByOrder t rest

/-- `.sort({order: 1})`. -/
def sortByOrder : List TierDoc → List TierDoc
  | [] => []
  | h :: rest => insertByOrder h (sortByOrder rest)

/-- `GET /artist/:artistId` (part_009, lines 37-52): the artist's active
tiers sorted by `order`. -/
def listTiers (tiers : List TierDoc) (artistId : Nat) : List TierDoc :=
  sortByOrder (tiers.filter fun t => t.artist == artistId && t.active)

/-- Concrete tier state: artist 1 (managed by user 7) holds three active
tiers and one soft-deleted tier. -/
def c5State : TierState :=
  { tiers :=
      [ { id := 1, artist := 1, name := "Bronze", price := 299, order := 1
          active := true }
      , { id := 2, artist := 1, name := "Silver", price := 599, order := 2
          active := true }
      , { id := 3, artist := 1, name := "Gold", price := 999, order := 3
          active := true }
      , { id := 4, artist := 1, name := "Old", price := 199, order := 1
          active := false } ]
    artists :=
      [ { id := 1, members := [7], acceptsSubscriptions := true
          hasCustomSubscriptionTiers := true } ] }

/-! ### Subscriptions router (src/src/routes/subscriptions.js): claims C6
and the counterexample of C2.  This router persists `UserSubscription`
documents in their own collection, guarded by the model's unique
`{user: 1, artist: 1}` index. -/

/-- The slice of an `Artist` document the subscriptions router consults;
`subscriberCount` is carried to observe that this router never touches
it. -/
structure SubArtistDoc where
  id : Nat
  acceptsSubscriptions : Bool
  subscriberCount : Int
  deriving DecidableEq, Repr

/-- The document-store state of the subscriptions router. -/
structure SubsState where
  subs : List UserSubscription
  artists : List SubArtistDoc
  tiers : List TierDoc
  deriving DecidableEq, Repr

/-- `endDate.setMonth(endDate.getMonth() + 1)`: one month, in seconds. -/
def oneMonthLater (now : Int) : Int := now + 2592000

/-- `POST /` (subscriptions.js, lines 82-158).  The duplicate check admits
a new subscription whenever no `active` or `paused` one exists, but the
save must still satisfy the unique `(user, artist)` index, which rejects
the insert whenever any document for the pair exists — whatever its
status — and the route's catch-all maps that error to a 500. -/
def subscriptionsCreate (st : SubsState) (callerId artistId tierId : Nat)
    (now : Int) (newId : Nat) : Resp × SubsState :=
  match st.artists.find? (fun a => a.id == artistId) with
  | none => (⟨404, "Artist not found"⟩, st)
  | some artist =>
    if !artist.acceptsSubscriptions then
      (⟨400, "This artist does not accept subscriptions"⟩, st)
    else
      match st.tiers.find?
          (fun t => t.id == tierId && t.artist == artistId && t.active) with
      | none => (⟨404, "Subscription tier not found"⟩, st)
      | some _tier =>
        match st.subs.find? (fun s => s.user == callerId &&
            s.artist == artistId &&
            (s.status == "active" || s.status == "paused")) with
        | some _existing =>
          (⟨400, "You already have an active subscription to this artist"⟩,
            st)
        | none =>
          if st.subs.any
              (fun s => s.user == callerId && s.artist == artistId) then
            (⟨500, "Server error"⟩, st)
          else
            let newSub : UserSubscription :=
              { id := newId, user := callerId, artist := artistId
                tier := tierId, status := "active"
                currentPeriodEnd := oneMonthLater now }
            (⟨201, "Created"⟩, { st with subs := st.subs ++ [newSub] })

/-- `PUT /:id/cancel` (subscriptions.js, lines 161-192): flips the status
to canceled; the document stays in the collection. -/
def cancelSubscription (st : SubsState) (callerId : Nat) (isAdmin : Bool)
    (subId : Nat) : Resp × SubsState :=
  match st.subs.find? (fun s => s.id == subId) with
  | none => (⟨404, "Subscription not found"⟩, st)
  | some subscription =>
    if !(subscription.user == callerId) && !isAdmin then
      (⟨403, "Not authorized to cancel this subscription"⟩, st)
    else
      let subs' := st.subs.map fun s =>
        if s.id == subId then { s with status := "canceled" } else s
      (⟨200, "Subscription canceled successfully"⟩,
        { st with subs := subs' })

/-- Concrete subscriptions state: user 9 holds an active subscription
(document 100) to artist 1 on tier 5; the artist accepts subscriptions. -/
def c6State : SubsState :=
  { subs :=
      [ { id := 100, user := 9, artist := 1, tier := 5
          status := "active", currentPeriodEnd := 2592000 } ]
    artists := [ { id := 1, acceptsSubscriptions := true
                   subscriberCount := 3 } ]
    tiers :=
      [ { id := 5, artist := 1, name := "Fan", price := 499, order := 1
          active := true } ] }

/-- Concrete subscriptions state for the C2 counterexample: no
subscription documents yet; artist 1 has subscriberCount 7. -/
def c2SubsState : SubsState :=
  { subs := []
    artists := [ { id := 1, acceptsSubscriptions := true
                   subscriberCount := 7 } ]
    tiers :=
      [ { id := 5, artist := 1, name := "Fan", price := 499, order := 1
          active := true } ] }

/-! ### Registration and playlists (src/src/routes/auth.js,
src/src/routes/playlists.js): claims C7, C8, C10 -/

/-- A playlist track entry (`{track, addedAt}` in the routes' schema,
src/unnamed/part_020). -/
structure TrackEntry where
  track : Nat
  addedAt : Int
  deriving DecidableEq, Repr

/-- A `Playlist` document.  The repository carries two playlist schemas:
src/src/models/Playlist.js stores an `isSystem` flag and no `type` field,
while the routes' schema (src/unnamed/part_020) stores `type` and `stats`;
documents carry both so each handler is embedded faithfully.  `typ` models
the `type` field and is `none` when absent, as on every document persisted
through src/src/models/Playlist.js. -/
structure PlaylistDoc where
  id : Nat
  name : String
  owner : Nat
  isSystem : Bool
  isPrivate : Bool
  typ : Option String
  tracks : List TrackEntry
  statsTotalDuration : Int
  deriving DecidableEq, Repr

/-- A `Track` catalog document; `duration` is optional, read as
`track.duration || 0`. -/
structure TrackDoc where
  id : Nat
  duration : Option Int
  deriving DecidableEq, Repr

/-- The slice of a `User` document written by registration. -/
structure RegUserDoc where
  id : Nat
  username : String
  email : String
  likedPlaylist : Option Nat
  createdPlaylists : List Nat
  deriving DecidableEq, Repr

/-- The document-store state of registration and the playlist routers. -/
structure PlaylistState where
  users : List RegUserDoc
  playlists : List PlaylistDoc
  deriving DecidableEq, Repr

/-- The registration fields consulted by the embedded handler. -/
structure RegisterBody where
  username : String
  email : String
  deriving DecidableEq, Repr

/-- `POST /register` (auth.js, lines 9-74): after the duplicate check, the
Liked Songs playlist is saved first and the user document second, with no
transaction and no rollback; the booleans model either save failing. -/
def register (st : PlaylistState) (body : RegisterBody) (uid pid : Nat)
    (failPlaylistSave failUserSave : Bool) : Resp × PlaylistState :=
  match st.users.find?
      (fun u => u.email == body.email || u.username == body.username) with
  | some _ =>
    (⟨400, "User already exists with that email or username"⟩, st)
  | none =>
    let likedSongs : PlaylistDoc :=
      { id := pid, name := "Liked Songs", owner := uid, isSystem := true
        isPrivate := true, typ := none, tracks := []
        statsTotalDuration := 0 }
    if failPlaylistSave then (⟨500, "Server error"⟩, st)
    else
      let st1 := { st with playlists := st.playlists ++ [likedSongs] }
      if failUserSave then (⟨500, "Server error"⟩, st1)
      else
        let user : RegUserDoc :=
          { id := uid, username := body.username, email := body.email
            likedPlaylist := some pid, createdPlaylists := [] }
        (⟨201, "Created"⟩, { st1 with users := st1.users ++ [user] })

/-- `Playlist.findById`. -/
def findPlaylist (playlists : List PlaylistDoc) (i : Nat) :
    Option PlaylistDoc :=
  playlists.find? fun p => p.id == i

/-- `playlist.save()`. -/
def savePlaylist (playlists : List PlaylistDoc) (p : PlaylistDoc) :
    List PlaylistDoc :=
  playlists.map fun q => if q.id == p.id then p else q

/-- `DELETE /:id` on the first playlists router (playlists.js, lines
262-293).  The system guard tests `playlist.type === 'system'`; the Liked
Songs playlist carries `isSystem` and no `type`, so the guard never
matches it. -/
def deletePlaylist (st : PlaylistState) (callerId pid : Nat) :
    Resp × PlaylistState :=
  match findPlaylist st.playlists pid with
  | none => (⟨404, "Playlist not found"⟩, st)
  | some playlist =>
    if !(playlist.owner == callerId) || playlist.typ == some "system" then
      (⟨403,
        if playlist.typ == some "system" then
          "System playlists cannot be deleted"
        else "Access denied: You do not own this playlist"⟩, st)
    else
      let users' := st.users.map fun u =>
        if u.id == callerId then
          { u with createdPlaylists :=
              u.createdPlaylists.filter fun i => !(i == pid) }
        else u
      let playlists' := st.playlists.eraseP fun p => p.id == pid
      (⟨200, "Playlist deleted successfully"⟩,
        { users := users', playlists := playlists' })

/-- `DELETE /:id` on the second playlists router:
`findOneAndDelete({_id, owner})` with no system-playlist check at all. -/
def deletePlaylistV2 (st : PlaylistState) (callerId pid : Nat) :
    Resp × PlaylistState :=
  match st.playlists.find?
      (fun p => p.id == pid && p.owner == callerId) with
  | none => (⟨404, "Playlist not found"⟩, st)
  | some _ =>
    (⟨200, "Playlist deleted"⟩,
      { st with playlists :=
          st.playlists.eraseP fun p => p.id == pid && p.owner == callerId })

/-- `POST /:id/tracks` (playlists.js, lines 144-187). -/
def addTrackToPlaylist (st : PlaylistState) (catalog : List TrackDoc)
    (callerId pid trackId : Nat) (now : Int) : Resp × PlaylistState :=
  match findPlaylist st.playlists pid with
  | none => (⟨404, "Playlist not found"⟩, st)
  | some playlist =>
    if !(playlist.owner == callerId) then
      (⟨403, "Access denied: You do not own this playlist"⟩, st)
    else
      match catalog.find? (fun t => t.id == trackId) with
      | none => (⟨404, "Track not found"⟩, st)
      | some track =>
        if playlist.tracks.any (fun t => t.track == trackId) then
          (⟨400, "Track already in playlist"⟩, st)
        else
          let playlist' :=
            { playlist with
              tracks := playlist.tracks ++
                [{ track := trackId, addedAt := now }]
              statsTotalDuration :=
                playlist.statsTotalDuration + track.duration.getD 0 }
          (⟨200, "Track added to playlist"⟩,
            { st with playlists := savePlaylist st.playlists playlist' })

/-- `DELETE /:id/tracks/:trackId` (playlists.js, lines 190-225).  The
duration is subtracted only when the catalog still holds the track. -/
def removeTrackFromPlaylist (st : PlaylistState) (catalog : List TrackDoc)
    (callerId pid trackId : Nat) : Resp × PlaylistState :=
  match findPlaylist st.playlists pid with
  | none => (⟨404, "Playlist not found"⟩, st)
  | some playlist =>
    if !(playlist.owner == callerId) then
      (⟨403, "Access denied: You do not own this playlist"⟩, st)
    else
      match playlist.tracks.find? (fun t => t.track == trackId) with
      | none => (⟨404, "Track not found in playlist"⟩, st)
      | some _trackItem =>
        let d : Int :=
          match catalog.find? (fun t => t.id == trackId) with
          | some track => track.duration.getD 0
          | none => 0
        let playlist' :=
          { playlist with
            statsTotalDuration := playlist.statsTotalDuration - d
            tracks := playlist.tracks.filter fun t => !(t.track == trackId) }
        (⟨200, "Track removed from playlist"⟩,
          { st with playlists := savePlaylist st.playlists playlist' })

/-- Concrete playlist state: user 1 owns playlist 2 holding track 5 with
stored total duration 180. -/
def c8State : PlaylistState :=
  { users :=
      [ { id := 1, username := "alice", email := "alice@example.com"
          likedPlaylist := none, createdPlaylists := [2] } ]
    playlists :=
      [ { id := 2, name := "Mix", owner := 1, isSystem := false
          isPrivate := false, typ := some "user"
          tracks := [{ track := 5, addedAt := 0 }]
          statsTotalDuration := 180 } ] }

/-- The track catalog for the C8 witness: track 5 lasts 180 seconds. -/
def c8Catalog : List TrackDoc := [ { id := 5, duration := some 180 } ]

/-! ### Playlist folders (validateFolderStructure in src/unnamed/part_015,
`PUT /:id` in src/src/routes/playlist-folders.js): claims C3 and C4 -/

/-- A `PlaylistFolder` document. -/
structure FolderDoc where
  id : Nat
  owner : Nat
  name : String
  description : String
  parentFolder : Option Nat
  isPublic : Bool
  deriving DecidableEq, Repr

/-- The `PlaylistFolder` collection. -/
abbrev FolderStore := List FolderDoc

/-- `PlaylistFolder.findById`. -/
def findFolder (store : FolderStore) (i : Nat) : Option FolderDoc :=
  store.find? fun d => d.id == i

/-- One parent step of the folder graph, as a function on ids. -/
def pnext (store : FolderStore) (i : Nat) : Option Nat :=
  match findFolder store i with
  | some d => d.parentFolder
  | none => none

/-- `n`-fold iteration of `pnext`: `some j` when the parent chain from `i`
is still alive after `n` steps and sits at `j`. -/
def pnextN (store : FolderStore) : Nat → Nat → Option Nat
  | 0, i => some i
  | n + 1, i =>
    match pnext store i with
    | some p => pnextN store n p
    | none => none

/-- The spec's folder invariant: no folder is its own strict ancestor. -/
def AcyclicStore (store : FolderStore) : Prop :=
  ∀ i n, 0 < n → pnextN store n i ≠ some i

/-- Corrupt data: the parent chain from `i` never reaches a root or a
dangling reference. -/
def InfiniteChain (store : FolderStore) (i : Nat) : Prop :=
  ∀ n, (pnextN store n i).isSome = true

/-- Outcome of the middleware's visited-set ancestor walk. -/
inductive WalkResult
  | pass
  | corruptCycle
  | circularRef
  | outOfFuel
  deriving DecidableEq, Repr

/-- The `while (currentParent.parentFolder)` loop of
`validateFolderStructure` (part_015, lines 52-75): check the visited set,
add the parent id to it, compare against the folder being moved, then
follow the reference (a dangling reference breaks out of the loop).
`fuel` bounds the iteration count; `outOfFuel` is proven unreachable for
the fuel the middleware supplies. -/
def walkLoop (store : FolderStore) (folderId : Nat) :
    FolderDoc → List Nat → Nat → WalkResult
  | _, _, 0 => .outOfFuel
  | cur, visited, fuel + 1 =>
    match cur.parentFolder with
    | none => .pass
    | some p =>
      if visited.contains p then .corruptCycle
      else if p == folderId then .circularRef
      else
        match findFolder store p with
        | none => .pass
        | some next => walkLoop store folderId next (p :: visited) fuel

/-- Outcome of the `validateFolderStructure` middleware. -/
inductive ValidateResult
  | passThrough
  | selfParent
  | parentNotFound
  | notAuthorized
  | corruptCycle
  | circularRef
  | fuelExhausted
  deriving DecidableEq, Repr

/-- `validateFolderStructure` (part_015, lines 27-82) on a `PUT /:id`
request: validation runs only when the body carries a truthy
`parentFolder`. -/
def validateFolderStructure (store : FolderStore) (callerId folderId : Nat)
    (parentFolder : Option Nat) : ValidateResult :=
  match parentFolder with
  | none => .passThrough
  | some p =>
    if p == folderId then .selfParent
    else
      match findFolder store p with
      | none => .parentNotFound
      | some parent =>
        if !(parent.owner == callerId) then .notAuthorized
        else
          match walkLoop store folderId parent [] (store.length + 1) with
          | .pass => .passThrough
          | .corruptCycle => .corruptCycle
          | .circularRef => .circularRef
          | .outOfFuel => .fuelExhausted

/-- Outcome of the route handler's own inline ancestor walk. -/
inductive InlineWalkResult
  | ok
  | circular
  | lookupError
  | outOfFuel
  deriving DecidableEq, Repr

/-- The handler's inline ancestor walk (playlist-folders.js, lines
152-159), written without a visited set; a dangling parent reference makes
the next loop condition throw, which the route's catch maps to 500
(`lookupError`). -/
def inlineWalk (store : FolderStore) (folderId : Nat) :
    FolderDoc → Nat → InlineWalkResult
  | _, 0 => .outOfFuel
  | cur, fuel + 1 =>
    match cur.parentFolder with
    | none => .ok
    | some p =>
      if p == folderId then .circular
      else
        match findFolder store p with
        | none => .lookupError
        | some next => inlineWalk store folderId next fuel

/-- The update body of `PUT /:id`.  `parentFolder` distinguishes an absent
field (`none`), an explicit null (`some none`) and a folder id
(`some (some p)`), mirroring undefined / null / string in the JS body. -/
structure FolderUpdateBody where
  name : Option String
  description : Option String
  parentFolder : Option (Option Nat)
  isPublic : Option Bool
  deriving DecidableEq, Repr

/-- The truthy parent id of a request body: only `some (some p)` triggers
the middleware's and the handler's parent validation. -/
def truthyParent (b : Option (Option Nat)) : Option Nat :=
  match b with
  | some (some p) => some p
  | _ => none

/-- The handler's field merge (`if (name) folder.name = name; ...`). -/
def applyFolderUpdate (folder : FolderDoc) (body : FolderUpdateBody) :
    FolderDoc :=
  { folder with
    name := body.name.getD folder.name
    description := body.description.getD folder.description
    parentFolder :=
      match body.parentFolder with
      | none => folder.parentFolder
      | some q => q
    isPublic := body.isPublic.getD folder.isPublic }

/-- `folder.save()` after the merge. -/
def saveFolderUpdate (store : FolderStore) (folderId : Nat)
    (folder : FolderDoc) (body : FolderUpdateBody) : Resp × FolderStore :=
  (⟨200, "ok"⟩,
    store.map fun d =>
      if d.id == folderId then applyFolderUpdate folder body else d)

/-- `PUT /:id` (playlist-folders.js, lines 120-175) composed with the
`validateFolderStructure` middleware that runs before it.  The handler
re-runs the self/existence/ownership checks and its own inline walk
whenever the body carries a truthy parent id (the JS guard
`parentFolder !== folder.parentFolder` compares a string against an
ObjectId and is always true for a truthy parent). -/
def putFolder (store : FolderStore) (callerId folderId : Nat)
    (body : FolderUpdateBody) : Resp × FolderStore :=
  match validateFolderStructure store callerId folderId
      (truthyParent body.parentFolder) with
  | .selfParent => (⟨400, "Cannot set folder as its own parent"⟩, store)
  | .parentNotFound => (⟨404, "Parent folder not found"⟩, store)
  | .notAuthorized =>
    (⟨403, "Not authorized to use this parent folder"⟩, store)
  | .corruptCycle =>
    (⟨400, "Circular reference detected in existing folders"⟩, store)
  | .circularRef =>
    (⟨400, "Cannot create circular folder reference"⟩, store)
  | .fuelExhausted => (⟨500, "Error validating folder structure"⟩, store)
  | .passThrough =>
    match findFolder store folderId with
    | none => (⟨404, "Folder not found"⟩, store)
    | some folder =>
      if !(folder.owner == callerId) then
        (⟨403, "Not authorized to edit this folder"⟩, store)
      else
        match truthyParent body.parentFolder with
        | some p =>
          if p == folderId then
            (⟨400, "Cannot set folder as its own parent"⟩, store)
          else
            match findFolder store p with
            | none => (⟨404, "Parent folder not found"⟩, store)
            | some parent =>
              if !(parent.owner == callerId) then
                (⟨403, "Not authorized to use this parent folder"⟩, store)
              else
                match inlineWalk store folderId parent
                    (store.length + 1) with
                | .circular =>
                  (⟨400, "Cannot create circular folder reference"⟩, store)
                | .lookupError => (⟨500, "Server error"⟩, store)
                | .outOfFuel => (⟨500, "Server error"⟩, store)
                | .ok => saveFolderUpdate store folderId folder body
        | none => saveFolderUpdate store folderId folder body

/-- The distinct document ids present in a folder store. -/
def folderIds (store : FolderStore) : List Nat :=
  store.map fun d => d.id

/-- Concrete acyclic store for the C3 witness: folder 2 is a child of
folder 1; both belong to user 7. -/
def c3Store : FolderStore :=
  [ { id := 1, owner := 7, name := "Roots", description := ""
      parentFolder := none, isPublic := false }
  , { id := 2, owner := 7, name := "Child", description := ""
      parentFolder := some 1, isPublic := false } ]

/-- Corrupt store for the C4 witness: folders 1 and 2 are each other's
parents. -/
def c4CycStore : FolderStore :=
  [ { id := 1, owner := 7, name := "A", description := ""
      parentFolder := some 2, isPublic := false }
  , { id := 2, owner := 7, name := "B", description := ""
      parentFolder := some 1, isPublic := false } ]

/-
===========================================================================
Theorems
===========================================================================
-/

/-- C1: the claim says a canceled subscription still grants access until
`currentPeriodEnd`.  On the failing input the spec's gate predicate holds
and the model method `canAccessContent` agrees, yet the code's
`checkSubscriptionAccess` denies access, because its database query selects
only `status: 'active'` subscriptions, so the canceled branch of
`canAccessContent` is unreachable from the route. -/
theorem c1_canceled_subscription_denied_by_code :
    specGatePredicate 50 [c1Sub] 10 c1Content = true ∧
    canAccessContent 50 c1Sub = true ∧
    checkSubscriptionAccess 50 [c1Sub] 10 c1Content = false := by
  decide

/-- C9 counterexample: user 1 exists and does not follow user 2 or artist
3, yet both unfollow handlers answer 200 with a success message (no
rejection), leaving the state untouched.  This refutes the claim that such
a request "is rejected with an error". -/
theorem c9_counterexample_unfollow_not_followed_succeeds :
    (unfollowUser c9State 1 2).1.status = 200 ∧
    (unfollowUser c9State 1 2).2 = c9State ∧
    (unfollowArtist c9State 1 3).1.status = 200 ∧
    (unfollowArtist c9State 1 3).2 = c9State := by
  decide

/-- C9 (amended): unfollowing a user or artist the caller does not
currently follow mutates nothing — neither the caller's following lists
nor any follower counter — but it is not rejected: the handler responds
200 with a success message. -/
theorem c9_unfollow_not_followed_no_mutation
    (st : FollowsState) (callerId targetId artistId : Nat)
    (user : FollowUserDoc)
    (hu : findFollowUser st.users callerId = some user)
    (hnf : user.followingUsers.contains targetId = false)
    (hna : user.followingArtists.contains artistId = false) :
    unfollowUser st callerId targetId =
      (⟨200, "Successfully unfollowed user"⟩, st) ∧
    unfollowArtist st callerId artistId =
      (⟨200, "Successfully unfollowed artist"⟩, st) := by
  constructor
  · simp only [unfollowUser, hu, hnf, Bool.false_eq_true, if_false]
  · simp only [unfollowArtist, hu, hna, Bool.false_eq_true, if_false]

/-- Looking a document up by a predicate commutes with a store-wide map
that does not change which documents satisfy the predicate.  This captures
`save`/`findByIdAndUpdate` followed by `findById`. -/
theorem find_map_pres {α : Type} (p : α → Bool) (f : α → α)
    (hp : ∀ a, p (f a) = p a) (l : List α) :
    (l.map f).find? p = (l.find? p).map f := by
  induction l with
  | nil => rfl
  | cons h t ih =>
    cases hph : p h with
    | false =>
      rw [List.map_cons, List.find?_cons_of_neg _ (by simp [hp, hph]),
        List.find?_cons_of_neg _ (by simp [hph]), ih]
    | true =>
      rw [List.map_cons, List.find?_cons_of_pos _ (by simp [hp, hph]),
        List.find?_cons_of_pos _ hph]
      rfl

/-- After `user.save()` the stored document for that user id is the saved
one. -/
theorem findFollowUser_save (users : List FollowUserDoc)
    (u u' : FollowUserDoc) (i : Nat)
    (h : findFollowUser users i = some u) (hid : u'.id = u.id) :
    findFollowUser (saveFollowUser users u') i = some u' := by
  unfold findFollowUser at h
  have hpu := List.find?_some h
  have hui : u.id = i := by simpa using hpu
  have hu'i : u'.id = i := hid.trans hui
  unfold findFollowUser saveFollowUser
  rw [find_map_pres]
  · rw [h]
    simp [hui, hu'i]
  · intro v
    by_cases hv : (v.id == u'.id) = true
    · have : v.id = u'.id := by simpa using hv
      simp [hv, this]
    · simp [hv]

/-- After the `$inc: {subscriberCount: d}` update the stored artist for
that id carries the incremented counter. -/
theorem findFollowArtist_inc (artists : List FollowArtistDoc)
    (a : FollowArtistDoc) (i : Nat) (d : Int)
    (h : findFollowArtist artists i = some a) :
    findFollowArtist (incArtistSubscriberCount artists i d) i =
      some { a with subscriberCount := a.subscriberCount + d } := by
  unfold findFollowArtist at h
  have hai : a.id = i := by simpa using List.find?_some h
  unfold findFollowArtist incArtistSubscriberCount
  rw [find_map_pres]
  · rw [h]
    simp [hai]
  · intro v
    by_cases hv : (v.id == i) = true
    · simp [hv]
    · simp [hv]

/-- C2 (amended): in the follows-route subscribe handler the subscription
push and the subscriber-counter increment commit or abort together: for
every starting state and every combination of write failures, either the
state is completely unchanged, or the handler answered 200 and the stored
user carries exactly the one new subscription while the stored artist's
subscriberCount rose by exactly 1. -/
theorem c2_follows_subscribe_atomic (st : FollowsState)
    (callerId artistId : Nat) (bodyPrice : Option Int)
    (failUserSave failArtistInc : Bool) :
    (subscribeArtistFollows st callerId artistId bodyPrice
        failUserSave failArtistInc).2 = st ∨
    ((subscribeArtistFollows st callerId artistId bodyPrice
        failUserSave failArtistInc).1.status = 200 ∧
      ∃ user artist,
        findFollowUser st.users callerId = some user ∧
        findFollowArtist st.artists artistId = some artist ∧
        findFollowUser (subscribeArtistFollows st callerId artistId bodyPrice
            failUserSave failArtistInc).2.users callerId =
          some { user with subscriptions := user.subscriptions ++
            [{ artist := artistId
               price := bodyPrice.getD (artist.subscriptionPrice.getD 499)
               status := "active" }] } ∧
        findFollowArtist (subscribeArtistFollows st callerId artistId
            bodyPrice failUserSave failArtistInc).2.artists artistId =
          some { artist with
                 subscriberCount := artist.subscriberCount + 1 }) := by
  unfold subscribeArtistFollows
  cases ha : findFollowArtist st.artists artistId with
  | none => left; rfl
  | some artist =>
    cases hu : findFollowUser st.users callerId with
    | none => left; rfl
    | some user =>
      by_cases hsub : user.subscriptions.any
          (fun sub => sub.artist == artistId && sub.status == "active") = true
      · left; simp [hsub]
      · cases hf : failUserSave || failArtistInc with
        | true => left; simp [hsub, hf]
        | false =>
          right
          refine ⟨by simp [hsub, hf], user, artist, rfl, rfl, ?_, ?_⟩
          · simp only [hsub, hf, Bool.false_eq_true, if_false]
            exact findFollowUser_save _ _ _ _ hu rfl
          · simp only [hsub, hf, Bool.false_eq_true, if_false]
            exact findFollowArtist_inc _ _ _ _ ha

/-- C2 counterexample: a successful create on the subscriptions router
persists the subscription document while the artist's `subscriberCount`
stays at 7 — the record exists without the counter increment the claim
asserts always accompanies it. -/
theorem c2_counterexample_subscriptions_route_skips_counter :
    (subscriptionsCreate c2SubsState 9 1 5 0 101).1.status = 201 ∧
    (subscriptionsCreate c2SubsState 9 1 5 0 101).2.subs.any
      (fun s => s.user == 9 && s.artist == 1) = true ∧
    (subscriptionsCreate c2SubsState 9 1 5 0 101).2.artists =
      c2SubsState.artists := by
  decide

/-- C6: with an active subscription in place a duplicate create is
rejected with 400 and nothing changes (first half of the claim, as
stated); but after a full cancel the re-subscribe attempt does NOT
succeed: the canceled document still occupies the unique (user, artist)
index, the insert raises a duplicate-key error, and the route answers 500
with the store unchanged — refuting the second half of the claim. -/
theorem c6_resubscribe_after_cancel_hits_unique_index :
    (subscriptionsCreate c6State 9 1 5 0 101).1.status = 400 ∧
    (subscriptionsCreate c6State 9 1 5 0 101).2 = c6State ∧
    (cancelSubscription c6State 9 false 100).1.status = 200 ∧
    (findSubscription
      (cancelSubscription c6State 9 false 100).2.subs 9 1 "canceled").isSome
      = true ∧
    (subscriptionsCreate (cancelSubscription c6State 9 false 100).2
      9 1 5 0 101).1.status = 500 ∧
    (subscriptionsCreate (cancelSubscription c6State 9 false 100).2
      9 1 5 0 101).2 = (cancelSubscription c6State 9 false 100).2 := by
  decide

/-- Appending one tier document adds its own contribution to the
active-tier count of an artist. -/
theorem countActiveTiers_append (l : List TierDoc) (t : TierDoc) (a : Nat) :
    countActiveTiers (l ++ [t]) a =
      countActiveTiers l a +
        (if (t.artist == a && t.active) = true then 1 else 0) := by
  unfold countActiveTiers
  rw [List.filter_append, List.length_append]
  cases h : (t.artist == a && t.active) <;> simp [List.filter_cons, h]

/-- Filtering after a map that only ever falsifies the predicate cannot
grow the filtered length. -/
theorem length_filter_map_le {α : Type} (p : α → Bool) (f : α → α)
    (hf : ∀ x, p (f x) = true → p x = true) (l : List α) :
    ((l.map f).filter p).length ≤ (l.filter p).length := by
  induction l with
  | nil => simp
  | cons h t ih =>
    simp only [List.map_cons, List.filter_cons]
    by_cases hp : p (f h) = true
    · rw [if_pos hp, if_pos (hf h hp)]
      simpa using Nat.succ_le_succ ih
    · rw [if_neg hp]
      by_cases hq : p h = true
      · rw [if_pos hq]
        simpa using Nat.le_succ_of_le ih
      · rw [if_neg hq]
        exact ih

/-- A soft delete never increases any artist's active-tier count. -/
theorem countActiveTiers_softDelete_le (l : List TierDoc) (tid a : Nat) :
    countActiveTiers
      (l.map fun t => if t.id == tid then { t with active := false } else t)
      a ≤ countActiveTiers l a := by
  unfold countActiveTiers
  refine length_filter_map_le _ _ ?_ l
  intro x hx
  by_cases hid : (x.id == tid) = true
  · simp [hid] at hx
  · simpa [hid] using hx

/-- Membership in ordered insertion. -/
theorem mem_insertByOrder (x t : TierDoc) (l : List TierDoc) :
    x ∈ insertByOrder t l ↔ x = t ∨ x ∈ l := by
  induction l with
  | nil => simp [insertByOrder]
  | cons h rest ih =>
    unfold insertByOrder
    by_cases hle : t.order ≤ h.order
    · simp [hle]
    · simp only [hle, if_false, List.mem_cons, ih]
      tauto

/-- Sorting by `order` preserves membership. -/
theorem mem_sortByOrder (x : TierDoc) (l : List TierDoc) :
    x ∈ sortByOrder l ↔ x ∈ l := by
  induction l with
  | nil => simp [sortByOrder]
  | cons h rest ih =>
    simp [sortByOrder, mem_insertByOrder, ih]

/-- C5: (1) tier creation preserves the ≤3 cap on active tiers of every
artist; (2) with 3 active tiers already present a create is rejected and
changes nothing; (3) a soft delete never raises any active-tier count;
(4) a successful delete rewrites the store by clearing `active` on the
one targeted document, retaining all documents; (5) the artist tier
listing contains exactly the active tiers of that artist. -/
theorem c5_tier_cap_soft_delete_listing :
    (∀ (st : TierState) (callerId : Nat) (isAdmin : Bool)
        (body : CreateTierBody) (newId a : Nat),
      countActiveTiers st.tiers a ≤ 3 →
      countActiveTiers
        (createTier st callerId isAdmin body newId).2.tiers a ≤ 3) ∧
    (∀ (st : TierState) (callerId : Nat) (isAdmin : Bool)
        (body : CreateTierBody) (newId : Nat),
      countActiveTiers st.tiers body.artist = 3 →
      (createTier st callerId isAdmin body newId).1.status ≠ 201 ∧
      (createTier st callerId isAdmin body newId).2 = st) ∧
    (∀ (st : TierState) (callerId : Nat) (isAdmin : Bool) (tierId a : Nat),
      countActiveTiers (deleteTier st callerId isAdmin tierId).2.tiers a ≤
        countActiveTiers st.tiers a) ∧
    (∀ (st : TierState) (callerId : Nat) (isAdmin : Bool) (tierId : Nat),
      (deleteTier st callerId isAdmin tierId).1.status = 200 →
      (deleteTier st callerId isAdmin tierId).2.tiers =
        st.tiers.map fun t =>
          if t.id == tierId then { t with active := false } else t) ∧
    (∀ (tiers : List TierDoc) (a : Nat) (t : TierDoc),
      t ∈ listTiers tiers a ↔ t ∈ tiers ∧ t.artist = a ∧ t.active = true) := by
  refine ⟨?_, ?_, ?_, ?_, ?_⟩
  · intro st callerId isAdmin body newId a hcap
    unfold createTier
    cases hfa : findTierArtist st.artists body.artist with
    | none => exact hcap
    | some artist =>
      dsimp only
      split_ifs with h1 h2 h3
      · exact hcap
      · exact hcap
      · exact hcap
      · dsimp only
        rw [countActiveTiers_append]
        by_cases hba : body.artist = a
        · subst hba
          have hlt : countActiveTiers st.tiers body.artist < 3 :=
            Nat.lt_of_not_le h3
          split_ifs <;> omega
        · have hne : (body.artist == a) = false := by simp [hba]
          simp only [hne, Bool.false_and, Bool.false_eq_true, if_false]
          exact hcap
  · intro st callerId isAdmin body newId hthree
    unfold createTier
    cases hfa : findTierArtist st.artists body.artist with
    | none =>
      dsimp only
      exact ⟨by decide, rfl⟩
    | some artist =>
      dsimp only
      split_ifs with h1 h2 h3
      · refine ⟨?_, rfl⟩
        dsimp only
        decide
      · refine ⟨?_, rfl⟩
        dsimp only
        decide
      · refine ⟨?_, rfl⟩
        dsimp only
        decide
      · exact absurd (by omega) h3
  · intro st callerId isAdmin tierId a
    unfold deleteTier
    cases hft : findTier st.tiers tierId with
    | none => exact le_refl _
    | some tier =>
      dsimp only
      cases hfa : findTierArtist st.artists tier.artist with
      | none => exact le_refl _
      | some artist =>
        dsimp only
        split_ifs with h1 h2
        · exact le_refl _
        · dsimp only
          exact countActiveTiers_softDelete_le st.tiers tierId a
        · dsimp only
          exact countActiveTiers_softDelete_le st.tiers tierId a
  · intro st callerId isAdmin tierId h200
    unfold deleteTier at h200 ⊢
    cases hft : findTier st.tiers tierId with
    | none =>
      rw [hft] at h200
      dsimp only at h200
      exact absurd h200 (by decide)
    | some tier =>
      rw [hft] at h200
      dsimp only at h200 ⊢
      cases hfa : findTierArtist st.artists tier.artist with
      | none =>
        rw [hfa] at h200
        dsimp only at h200
        exact absurd h200 (by decide)
      | some artist =>
        rw [hfa] at h200
        dsimp only at h200 ⊢
        split_ifs at h200 ⊢ with h1 h2
        · dsimp only at h200
          exact absurd h200 (by decide)
        · rfl
        · rfl
  · intro tiers a t
    simp [listTiers, mem_sortByOrder, List.mem_filter]

/-- Witness for `c5_tier_cap_soft_delete_listing` on the concrete store
`c5State` (three active tiers for artist 1, one retired). -/
theorem c5_tier_cap_soft_delete_listing_witness :
    countActiveTiers
      (createTier c5State 7 false ⟨1, "Platinum", 1999, none⟩ 9).2.tiers 1
      ≤ 3 ∧
    ((createTier c5State 7 false ⟨1, "Platinum", 1999, none⟩ 9).1.status
        ≠ 201 ∧
      (createTier c5State 7 false ⟨1, "Platinum", 1999, none⟩ 9).2 =
        c5State) ∧
    countActiveTiers (deleteTier c5State 7 false 3).2.tiers 1 ≤
      countActiveTiers c5State.tiers 1 ∧
    ((deleteTier c5State 7 false 3).1.status = 200 ∧
      (deleteTier c5State 7 false 3).2.tiers =
        c5State.tiers.map fun t =>
          if t.id == 3 then { t with active := false } else t) ∧
    (({ id := 1, artist := 1, name := "Bronze", price := 299, order := 1
        active := true } : TierDoc) ∈ listTiers c5State.tiers 1 ↔
      ({ id := 1, artist := 1, name := "Bronze", price := 299, order := 1
         active := true } : TierDoc) ∈ c5State.tiers ∧
      ({ id := 1, artist := 1, name := "Bronze", price := 299, order := 1
         active := true } : TierDoc).artist = 1 ∧
      ({ id := 1, artist := 1, name := "Bronze", price := 299, order := 1
         active := true } : TierDoc).active = true) :=
  ⟨c5_tier_cap_soft_delete_listing.1 c5State 7 false
      ⟨1, "Platinum", 1999, none⟩ 9 1 (by decide),
   c5_tier_cap_soft_delete_listing.2.1 c5State 7 false
      ⟨1, "Platinum", 1999, none⟩ 9 (by decide),
   c5_tier_cap_soft_delete_listing.2.2.1 c5State 7 false 3 1,
   ⟨by decide,
    c5_tier_cap_soft_delete_listing.2.2.2.1 c5State 7 false 3 (by decide)⟩,
   c5_tier_cap_soft_delete_listing.2.2.2.2 c5State.tiers 1 _⟩

/-- C7: registering user 1 on an empty store does create a Liked Songs
playlist owned by user 1 and flagged `isSystem` (that half of the claim
holds), but both delete endpoints then remove it at the owner's request
with a 200 response: the first router's guard checks `playlist.type ===
'system'` — a field the persisting schema does not even define — and the
second router checks ownership only, so the claim that every delete
attempt is rejected is false on the code. -/
theorem c7_liked_songs_created_but_deletable :
    (register ⟨[], []⟩ ⟨"alice", "alice@example.com"⟩ 1 2 false
        false).1.status = 201 ∧
    findPlaylist (register ⟨[], []⟩ ⟨"alice", "alice@example.com"⟩ 1 2
        false false).2.playlists 2 =
      some { id := 2, name := "Liked Songs", owner := 1, isSystem := true
             isPrivate := true, typ := none, tracks := []
             statsTotalDuration := 0 } ∧
    (deletePlaylist (register ⟨[], []⟩ ⟨"alice", "alice@example.com"⟩ 1 2
        false false).2 1 2).1.status = 200 ∧
    findPlaylist (deletePlaylist (register ⟨[], []⟩
        ⟨"alice", "alice@example.com"⟩ 1 2 false false).2 1 2).2.playlists
      2 = none ∧
    (deletePlaylistV2 (register ⟨[], []⟩ ⟨"alice", "alice@example.com"⟩ 1 2
        false false).2 1 2).1.status = 200 ∧
    findPlaylist (deletePlaylistV2 (register ⟨[], []⟩
        ⟨"alice", "alice@example.com"⟩ 1 2 false false).2 1 2).2.playlists
      2 = none := by
  decide

/-- C10: registration is not atomic.  When the duplicate check passes, the
playlist save succeeds and the user save then fails, the request errors
with 500 while the Liked Songs playlist stays persisted and no user
document exists — exactly the orphaned-playlist state the claim
describes, with no rollback. -/
theorem c10_register_orphans_liked_songs_playlist
    (st : PlaylistState) (body : RegisterBody) (uid pid : Nat)
    (hdup : st.users.find?
      (fun u => u.email == body.email || u.username == body.username)
      = none) :
    (register st body uid pid false true).1.status = 500 ∧
    (register st body uid pid false true).2.users = st.users ∧
    (register st body uid pid false true).2.playlists =
      st.playlists ++
        [{ id := pid, name := "Liked Songs", owner := uid
           isSystem := true, isPrivate := true, typ := none, tracks := []
           statsTotalDuration := 0 }] := by
  unfold register
  rw [hdup]
  exact ⟨rfl, rfl, rfl⟩

/-- Witness for `c10_register_orphans_liked_songs_playlist` on the empty
store. -/
theorem c10_register_orphans_liked_songs_playlist_witness :
    (register ⟨[], []⟩ ⟨"bob", "bob@example.com"⟩ 1 2 false
        true).1.status = 500 ∧
    (register ⟨[], []⟩ ⟨"bob", "bob@example.com"⟩ 1 2 false
        true).2.users = ([] : List RegUserDoc) ∧
    (register ⟨[], []⟩ ⟨"bob", "bob@example.com"⟩ 1 2 false
        true).2.playlists =
      ([] : List PlaylistDoc) ++
        [{ id := 2, name := "Liked Songs", owner := 1
           isSystem := true, isPrivate := true, typ := none, tracks := []
           statsTotalDuration := 0 }] :=
  c10_register_orphans_liked_songs_playlist ⟨[], []⟩
    ⟨"bob", "bob@example.com"⟩ 1 2 (by decide)

/-- The two halves of a filter partition a list's length. -/
theorem filter_length_split {α : Type} (p : α → Bool) (l : List α) :
    (l.filter p).length + (l.filter fun x => !p x).length = l.length := by
  induction l with
  | nil => rfl
  | cons h t ih =>
    by_cases hp : p h = true <;>
      simp only [List.filter_cons, hp, Bool.not_true, Bool.not_false,
        if_true, if_false, Bool.true_eq_false, Bool.false_eq_true,
        List.length_cons] <;> omega

/-- After `playlist.save()` the stored document for that playlist id is
the saved one. -/
theorem findPlaylist_save (playlists : List PlaylistDoc)
    (p p' : PlaylistDoc) (i : Nat)
    (h : findPlaylist playlists i = some p) (hid : p'.id = p.id) :
    findPlaylist (savePlaylist playlists p') i = some p' := by
  unfold findPlaylist at h
  have hpu := List.find?_some h
  have hpi : p.id = i := by simpa using hpu
  have hp'i : p'.id = i := hid.trans hpi
  unfold findPlaylist savePlaylist
  rw [find_map_pres]
  · rw [h]
    simp [hpi, hp'i]
  · intro v
    by_cases hv : (v.id == p'.id) = true
    · have : v.id = p'.id := by simpa using hv
      simp [hv, this]
    · simp [hv]

/-- C8: (1) adding a track that already has an entry in the playlist is
rejected with 400 and the store is unchanged; (2) removing a track whose
entry is present (uniquely, as the add path guarantees) succeeds, stores
the playlist with exactly that entry removed, and decreases the stored
`stats.totalDuration` by exactly the catalog track's duration. -/
theorem c8_duplicate_add_rejected_remove_decrements_duration :
    (∀ (st : PlaylistState) (catalog : List TrackDoc)
        (callerId pid trackId : Nat) (now : Int)
        (playlist : PlaylistDoc) (track : TrackDoc),
      findPlaylist st.playlists pid = some playlist →
      (playlist.owner == callerId) = true →
      catalog.find? (fun t => t.id == trackId) = some track →
      playlist.tracks.any (fun t => t.track == trackId) = true →
      addTrackToPlaylist st catalog callerId pid trackId now =
        (⟨400, "Track already in playlist"⟩, st)) ∧
    (∀ (st : PlaylistState) (catalog : List TrackDoc)
        (callerId pid trackId : Nat)
        (playlist : PlaylistDoc) (track : TrackDoc) (d : Int),
      findPlaylist st.playlists pid = some playlist →
      (playlist.owner == callerId) = true →
      (playlist.tracks.filter fun t => t.track == trackId).length = 1 →
      catalog.find? (fun t => t.id == trackId) = some track →
      track.duration = some d →
      (removeTrackFromPlaylist st catalog callerId pid trackId).1.status
        = 200 ∧
      findPlaylist
        (removeTrackFromPlaylist st catalog callerId pid
          trackId).2.playlists pid =
        some { playlist with
               statsTotalDuration := playlist.statsTotalDuration - d
               tracks :=
                 playlist.tracks.filter fun t => !(t.track == trackId) } ∧
      (playlist.tracks.filter fun t => !(t.track == trackId)).length + 1 =
        playlist.tracks.length) := by
  constructor
  · intro st catalog callerId pid trackId now playlist track
      hfind howner hcat hdup
    unfold addTrackToPlaylist
    rw [hfind]
    dsimp only
    rw [howner, hcat]
    dsimp only
    rw [hdup]
    rfl
  · intro st catalog callerId pid trackId playlist track d
      hfind howner hone hcat hdur
    have hmem : ∃ e, playlist.tracks.find?
        (fun t => t.track == trackId) = some e := by
      rw [← Option.isSome_iff_exists, List.find?_isSome]
      have : playlist.tracks.filter (fun t => t.track == trackId) ≠ [] := by
        intro hnil
        rw [hnil] at hone
        exact absurd hone (by decide)
      obtain ⟨e, he⟩ := List.exists_mem_of_ne_nil _ this
      exact ⟨e, (List.mem_filter.mp he).1, (List.mem_filter.mp he).2⟩
    obtain ⟨e, he⟩ := hmem
    have hlen : (playlist.tracks.filter
        fun t => !(t.track == trackId)).length + 1 =
        playlist.tracks.length := by
      have hsplit := filter_length_split
        (fun t => t.track == trackId) playlist.tracks
      omega
    refine ⟨?_, ?_, hlen⟩
    · unfold removeTrackFromPlaylist
      rw [hfind]
      dsimp only
      rw [howner]
      rw [he]
      rfl
    · unfold removeTrackFromPlaylist
      rw [hfind]
      dsimp only
      rw [howner, he, hcat]
      simp only [Bool.not_true, Bool.false_eq_true, if_false]
      rw [hdur]
      exact findPlaylist_save st.playlists playlist _ pid hfind rfl

/-- Witness for `c8_duplicate_add_rejected_remove_decrements_duration` on
the concrete store `c8State` (playlist 2 of user 1 holding track 5). -/
theorem c8_duplicate_add_rejected_remove_decrements_duration_witness :
    addTrackToPlaylist c8State c8Catalog 1 2 5 7 =
      (⟨400, "Track already in playlist"⟩, c8State) ∧
    ((removeTrackFromPlaylist c8State c8Catalog 1 2 5).1.status = 200 ∧
      findPlaylist
        (removeTrackFromPlaylist c8State c8Catalog 1 2 5).2.playlists 2 =
        some { id := 2, name := "Mix", owner := 1, isSystem := false
               isPrivate := false, typ := some "user"
               tracks := ([{ track := 5, addedAt := 0 }] : List TrackEntry
                 ).filter (fun t => !(t.track == 5))
               statsTotalDuration := (180 : Int) - 180 } ∧
      (([{ track := 5, addedAt := 0 }] : List TrackEntry).filter
          (fun t => !(t.track == 5))).length + 1 =
        ([{ track := 5, addedAt := 0 }] : List TrackEntry).length) :=
  ⟨c8_duplicate_add_rejected_remove_decrements_duration.1 c8State c8Catalog
      1 2 5 7
      { id := 2, name := "Mix", owner := 1, isSystem := false
        isPrivate := false, typ := some "user"
        tracks := [{ track := 5, addedAt := 0 }]
        statsTotalDuration := 180 }
      { id := 5, duration := some 180 }
      (by decide) (by decide) (by decide) (by decide),
   c8_duplicate_add_rejected_remove_decrements_duration.2 c8State c8Catalog
      1 2 5
      { id := 2, name := "Mix", owner := 1, isSystem := false
        isPrivate := false, typ := some "user"
        tracks := [{ track := 5, addedAt := 0 }]
        statsTotalDuration := 180 }
      { id := 5, duration := some 180 } 180
      (by decide) (by decide) (by decide) (by decide) (by decide)⟩

/-- Witness for `c9_unfollow_not_followed_no_mutation` at the concrete
state `c9State`. -/
theorem c9_unfollow_not_followed_no_mutation_witness :
    unfollowUser c9State 1 2 =
      (⟨200, "Successfully unfollowed user"⟩, c9State) ∧
    unfollowArtist c9State 1 3 =
      (⟨200, "Successfully unfollowed artist"⟩, c9State) :=
  c9_unfollow_not_followed_no_mutation c9State 1 2 3
    { id := 1, followingUsers := [], followingArtists := []
      subscriptions := [], followerCount := 0 }
    (by decide) (by decide) (by decide)

/-- `pnextN` peels its first step when the parent step exists. -/
theorem pnextN_succ_of_pnext (store : FolderStore) {i p : Nat} (n : Nat)
    (h : pnext store i = some p) :
    pnextN store (n + 1) i = pnextN store n p := by
  have hdef : pnextN store (n + 1) i =
      (match pnext store i with
       | some p => pnextN store n p
       | none => none) := rfl
  rw [hdef, h]

/-- A chain with no first step is dead at every positive depth. -/
theorem pnextN_succ_of_none (store : FolderStore) {i : Nat} (n : Nat)
    (h : pnext store i = none) :
    pnextN store (n + 1) i = none := by
  have hdef : pnextN store (n + 1) i =
      (match pnext store i with
       | some p => pnextN store n p
       | none => none) := rfl
  rw [hdef, h]

/-- `pnextN` is additive. -/
theorem pnextN_add (store : FolderStore) :
    ∀ (a b i : Nat), pnextN store (a + b) i =
      (pnextN store a i).bind (pnextN store b) := by
  intro a
  induction a with
  | zero =>
    intro b i
    simp [pnextN]
  | succ a ih =>
    intro b i
    rw [Nat.succ_add]
    cases h : pnext store i with
    | none =>
      rw [pnextN_succ_of_none _ _ h, pnextN_succ_of_none _ _ h]
      rfl
    | some p =>
      rw [pnextN_succ_of_pnext _ _ h, pnextN_succ_of_pnext _ _ h, ih]

/-- A successful folder lookup returns the document with that id. -/
theorem findFolder_id {store : FolderStore} {i : Nat} {d : FolderDoc}
    (h : findFolder store i = some d) : d.id = i := by
  unfold findFolder at h
  have := List.find?_some h
  simpa using this

/-- A successfully looked-up id is an id of the store. -/
theorem mem_folderIds_of_find {store : FolderStore} {i : Nat}
    {d : FolderDoc} (h : findFolder store i = some d) :
    i ∈ folderIds store := by
  have hid : d.id = i := findFolder_id h
  unfold findFolder at h
  have hm := List.mem_of_find?_eq_some h
  have : d.id ∈ folderIds store := List.mem_map_of_mem _ hm
  rwa [hid] at this

/-- A dangling id has no parent step. -/
theorem pnext_eq_none_of_find_none {store : FolderStore} {i : Nat}
    (h : findFolder store i = none) : pnext store i = none := by
  unfold pnext
  rw [h]

/-- A duplicate-free list of ids drawn from `L` is no longer than `L`
deduplicated. -/
theorem nodup_subset_length_le {l L : List Nat} (hnd : l.Nodup)
    (hsub : ∀ x ∈ l, x ∈ L) : l.length ≤ L.dedup.length := by
  classical
  have h1 : l.toFinset.card = l.length := List.toFinset_card_of_nodup hnd
  have h2 : L.toFinset.card = L.dedup.length := List.card_toFinset L
  have hss : l.toFinset ⊆ L.toFinset := by
    intro x hx
    rw [List.mem_toFinset] at hx ⊢
    exact hsub x hx
  calc l.length = l.toFinset.card := h1.symm
    _ ≤ L.toFinset.card := Finset.card_le_card hss
    _ = L.dedup.length := h2

/-- The visited set grows by one store id with every iteration, so with
one unit of fuel per distinct id the walk never exhausts its fuel. -/
theorem walkLoop_no_fuel_exhaust (store : FolderStore) (folderId : Nat) :
    ∀ (fuel : Nat) (cur : FolderDoc) (visited : List Nat),
      visited.Nodup → (∀ v ∈ visited, v ∈ folderIds store) →
      (folderIds store).dedup.length + 1 ≤ fuel + visited.length →
      walkLoop store folderId cur visited fuel ≠ .outOfFuel := by
  intro fuel
  induction fuel with
  | zero =>
    intro cur visited hnd hsub harith
    have := nodup_subset_length_le hnd hsub
    omega
  | succ fuel ih =>
    intro cur visited hnd hsub harith
    unfold walkLoop
    cases hp : cur.parentFolder with
    | none => simp
    | some p =>
      dsimp only
      cases hvis : visited.contains p with
      | true => simp
      | false =>
        cases hpf : p == folderId with
        | true => simp
        | false =>
          cases hf : findFolder store p with
          | none => simp
          | some next =>
            simp only [Bool.false_eq_true, if_false]
            refine ih next (p :: visited) ?_ ?_ ?_
            · refine List.nodup_cons.mpr ⟨?_, hnd⟩
              simpa using hvis
            · intro v hv
              rcases List.mem_cons.mp hv with rfl | hv'
              · exact mem_folderIds_of_find hf
              · exact hsub v hv'
            · simp only [List.length_cons]
              omega

/-- On a parent chain that never dies, the visited-set walk can only exit
through one of its two 400 rejections. -/
theorem walkLoop_infinite_chain_rejects (store : FolderStore)
    (folderId : Nat) :
    ∀ (fuel : Nat) (cur : FolderDoc) (visited : List Nat),
      visited.Nodup → (∀ v ∈ visited, v ∈ folderIds store) →
      (folderIds store).dedup.length + 1 ≤ fuel + visited.length →
      findFolder store cur.id = some cur →
      InfiniteChain store cur.id →
      walkLoop store folderId cur visited fuel = .corruptCycle ∨
      walkLoop store folderId cur visited fuel = .circularRef := by
  intro fuel
  induction fuel with
  | zero =>
    intro cur visited hnd hsub harith hfind hinf
    have := nodup_subset_length_le hnd hsub
    omega
  | succ fuel ih =>
    intro cur visited hnd hsub harith hfind hinf
    have hpn : pnext store cur.id = cur.parentFolder := by
      unfold pnext
      rw [hfind]
    unfold walkLoop
    cases hp : cur.parentFolder with
    | none =>
      exfalso
      have h1 : pnextN store 1 cur.id = none :=
        pnextN_succ_of_none store 0 (by rw [hpn, hp])
      have h2 := hinf 1
      rw [h1] at h2
      simp at h2
    | some p =>
      dsimp only
      have hstep : pnext store cur.id = some p := by rw [hpn, hp]
      cases hvis : visited.contains p with
      | true => simp
      | false =>
        cases hpf : p == folderId with
        | true => simp
        | false =>
          cases hf : findFolder store p with
          | none =>
            exfalso
            have h1 : pnextN store 2 cur.id = pnextN store 1 p :=
              pnextN_succ_of_pnext store 1 hstep
            have h2 : pnextN store 1 p = none :=
              pnextN_succ_of_none store 0 (pnext_eq_none_of_find_none hf)
            have h3 := hinf 2
            rw [h1, h2] at h3
            simp at h3
          | some next =>
            simp only [Bool.false_eq_true, if_false]
            have hnid : next.id = p := findFolder_id hf
            refine ih next (p :: visited) ?_ ?_ ?_ ?_ ?_
            · refine List.nodup_cons.mpr ⟨?_, hnd⟩
              simpa using hvis
            · intro v hv
              rcases List.mem_cons.mp hv with rfl | hv'
              · exact mem_folderIds_of_find hf
              · exact hsub v hv'
            · simp only [List.length_cons]
              omega
            · rw [hnid]
              exact hf
            · intro n
              have hn := hinf (n + 1)
              rw [pnextN_succ_of_pnext store n hstep] at hn
              rw [hnid]
              exact hn

/-- C4: the ancestor walk of `validateFolderStructure` terminates for
every input — with the fuel one unit per stored folder plus one, it never
exhausts — and on corrupt stored data whose parent chain from the walk's
start never terminates, the visited-id set forces one of the two 400
rejections instead of an infinite loop. -/
theorem c4_ancestor_walk_always_terminates :
    (∀ (store : FolderStore) (callerId folderId : Nat)
        (parentFolder : Option Nat),
      validateFolderStructure store callerId folderId parentFolder ≠
        .fuelExhausted) ∧
    (∀ (store : FolderStore) (folderId : Nat) (d : FolderDoc),
      findFolder store d.id = some d →
      InfiniteChain store d.id →
      walkLoop store folderId d [] (store.length + 1) = .corruptCycle ∨
      walkLoop store folderId d [] (store.length + 1) = .circularRef) := by
  have hcard : ∀ store : FolderStore,
      (folderIds store).dedup.length ≤ store.length := by
    intro store
    have h1 := (List.dedup_sublist (folderIds store)).length_le
    have h2 : (folderIds store).length = store.length := by
      simp [folderIds]
    omega
  constructor
  · intro store callerId folderId parentFolder
    unfold validateFolderStructure
    cases parentFolder with
    | none => simp
    | some p =>
      dsimp only
      cases hpf : p == folderId with
      | true => simp
      | false =>
        cases hf : findFolder store p with
        | none => simp
        | some parent =>
          dsimp only
          cases how : parent.owner == callerId with
          | false => simp
          | true =>
            simp only [Bool.not_true, Bool.false_eq_true, if_false]
            have hfuel : walkLoop store folderId parent []
                (store.length + 1) ≠ .outOfFuel := by
              refine walkLoop_no_fuel_exhaust store folderId
                (store.length + 1) parent [] List.nodup_nil (by simp) ?_
              have := hcard store
              simp only [List.length_nil]
              omega
            cases hw : walkLoop store folderId parent []
                (store.length + 1) with
            | pass => simp
            | corruptCycle => simp
            | circularRef => simp
            | outOfFuel => exact absurd hw hfuel
  · intro store folderId d hfind hinf
    refine walkLoop_infinite_chain_rejects store folderId
      (store.length + 1) d [] List.nodup_nil (by simp) ?_ hfind hinf
    have := hcard store
    simp only [List.length_nil]
    omega

/-- The chain of the corrupt two-cycle store alternates between its two
folders and never dies. -/
theorem c4CycStore_infinite : InfiniteChain c4CycStore 1 := by
  have hp1 : pnext c4CycStore 1 = some 2 := by decide
  have hp2 : pnext c4CycStore 2 = some 1 := by decide
  have key : ∀ n, (pnextN c4CycStore n 1).isSome = true ∧
      (pnextN c4CycStore n 2).isSome = true := by
    intro n
    induction n with
    | zero => constructor <;> rfl
    | succ n ih =>
      constructor
      · rw [pnextN_succ_of_pnext _ n hp1]
        exact ih.2
      · rw [pnextN_succ_of_pnext _ n hp2]
        exact ih.1
  intro n
  exact (key n).1

/-- Witness for `c4_ancestor_walk_always_terminates` on the corrupt
two-cycle store `c4CycStore`. -/
theorem c4_ancestor_walk_always_terminates_witness :
    validateFolderStructure c4CycStore 7 5 (some 1) ≠ .fuelExhausted ∧
    (walkLoop c4CycStore 5
        { id := 1, owner := 7, name := "A", description := ""
          parentFolder := some 2, isPublic := false } []
        (c4CycStore.length + 1) = .corruptCycle ∨
      walkLoop c4CycStore 5
        { id := 1, owner := 7, name := "A", description := ""
          parentFolder := some 2, isPublic := false } []
        (c4CycStore.length + 1) = .circularRef) :=
  ⟨c4_ancestor_walk_always_terminates.1 c4CycStore 7 5 (some 1),
   c4_ancestor_walk_always_terminates.2 c4CycStore 5
     { id := 1, owner := 7, name := "A", description := ""
       parentFolder := some 2, isPublic := false }
     (by decide) c4CycStore_infinite⟩

/-- A chain prefix that avoids the one re-parented folder takes the same
steps in the updated store as in the original. -/
theorem pnextN_transfer_avoid (s s' : FolderStore) (x : Nat)
    (hagree : ∀ j, j ≠ x → pnext s' j = pnext s j) :
    ∀ (k i : Nat), (∀ m, m < k → pnextN s' m i ≠ some x) →
      pnextN s' k i = pnextN s k i := by
  intro k
  induction k with
  | zero => intro i _; rfl
  | succ k ih =>
    intro i havoid
    have hix : i ≠ x := by
      have h0 := havoid 0 (Nat.succ_pos k)
      simpa [pnextN] using h0
    have hpe : pnext s' i = pnext s i := hagree i hix
    cases hq : pnext s i with
    | none =>
      rw [pnextN_succ_of_none s' k (by rw [hpe, hq]),
        pnextN_succ_of_none s k hq]
    | some p =>
      rw [pnextN_succ_of_pnext s' k (by rw [hpe, hq]),
        pnextN_succ_of_pnext s k hq]
      refine ih p ?_
      intro m hm
      have hnext := havoid (m + 1) (Nat.succ_lt_succ hm)
      rw [pnextN_succ_of_pnext s' m (by rw [hpe, hq])] at hnext
      exact hnext

/-- A cycle through an intermediate node is a cycle at that node. -/
theorem pnextN_rotate (s : FolderStore) {n k i x : Nat}
    (hcyc : pnextN s n i = some i) (hk : pnextN s k i = some x)
    (hkn : k ≤ n) : pnextN s n x = some x := by
  have hadd := pnextN_add s k (n - k) i
  rw [Nat.add_sub_cancel' hkn, hcyc, hk] at hadd
  have h1 : pnextN s (n - k) x = some i := by
    simpa using hadd.symm
  have h2 := pnextN_add s (n - k) k x
  rw [Nat.sub_add_cancel hkn, h1] at h2
  simpa [hk] using h2

/-- The parent step of the store after `folder.save()` on the update: the
re-parented folder now steps to the merged parent, every other id steps as
before. -/
theorem pnext_update (store : FolderStore) (folderId : Nat)
    (folder : FolderDoc) (body : FolderUpdateBody)
    (hfind : findFolder store folderId = some folder) :
    ∀ j, pnext (store.map fun d =>
        if d.id == folderId then applyFolderUpdate folder body else d) j =
      if j = folderId then (applyFolderUpdate folder body).parentFolder
      else pnext store j := by
  have hfid : folder.id = folderId := findFolder_id hfind
  have happid : (applyFolderUpdate folder body).id = folderId := by
    simp [applyFolderUpdate, hfid]
  intro j
  unfold pnext findFolder
  rw [find_map_pres]
  · unfold findFolder at hfind
    by_cases hj : j = folderId
    · subst hj
      rw [hfind]
      simp [hfid]
    · cases hfj : store.find? (fun d => d.id == j) with
      | none => simp [hj]
      | some dj =>
        have hdj : dj.id = j := by simpa using List.find?_some hfj
        have hne : (dj.id == folderId) = false := by simp [hdj, hj]
        simp [hne, hdj, hj]
  · intro d
    by_cases hd : (d.id == folderId) = true
    · have hdid : d.id = folderId := by simpa using hd
      simp [hd, happid, hdid]
    · simp [hd]

/-- In an acyclic store, when the parent chain of the walked folder
reaches `folderId`, the walk exits with the circular-reference
rejection (the corrupt-data branch cannot fire without a cycle). -/
theorem walkLoop_finds_target (store : FolderStore) (folderId : Nat)
    (hacyc : AcyclicStore store) :
    ∀ (fuel : Nat) (cur : FolderDoc) (visited : List Nat),
      visited.Nodup → (∀ v ∈ visited, v ∈ folderIds store) →
      (folderIds store).dedup.length + 1 ≤ fuel + visited.length →
      findFolder store cur.id = some cur →
      (∀ v ∈ visited, ∃ m, pnextN store m v = some cur.id) →
      (∃ n, 0 < n ∧ pnextN store n cur.id = some folderId) →
      walkLoop store folderId cur visited fuel = .circularRef := by
  intro fuel
  induction fuel with
  | zero =>
    intro cur visited hnd hsub harith _ _ _
    have := nodup_subset_length_le hnd hsub
    omega
  | succ fuel ih =>
    intro cur visited hnd hsub harith hfind hback htarget
    obtain ⟨n, hn0, hnreach⟩ := htarget
    have hpn : pnext store cur.id = cur.parentFolder := by
      unfold pnext
      rw [hfind]
    unfold walkLoop
    cases hp : cur.parentFolder with
    | none =>
      exfalso
      obtain ⟨m, rfl⟩ : ∃ m, n = m + 1 := ⟨n - 1, by omega⟩
      rw [pnextN_succ_of_none store m (by rw [hpn, hp])] at hnreach
      exact Option.noConfusion hnreach
    | some p =>
      dsimp only
      have hstep : pnext store cur.id = some p := by rw [hpn, hp]
      have hone : pnextN store 1 cur.id = some p := by
        have h := pnextN_succ_of_pnext store 0 hstep
        simpa [pnextN] using h
      cases hvis : visited.contains p with
      | true =>
        exfalso
        have hpmem : p ∈ visited := by simpa using hvis
        obtain ⟨m, hm⟩ := hback p hpmem
        have hcyc : pnextN store (m + 1) p = some p := by
          rw [pnextN_add store m 1 p, hm]
          simpa using hone
        exact hacyc p (m + 1) (Nat.succ_pos m) hcyc
      | false =>
        cases hpf : p == folderId with
        | true => simp
        | false =>
          have hpne : p ≠ folderId := by simpa using hpf
          obtain ⟨m, rfl⟩ : ∃ m, n = m + 1 := ⟨n - 1, by omega⟩
          rw [pnextN_succ_of_pnext store m hstep] at hnreach
          have hm0 : 0 < m := by
            rcases Nat.eq_zero_or_pos m with rfl | h
            · exfalso
              have : p = folderId := by simpa [pnextN] using hnreach
              exact hpne this
            · exact h
          cases hf : findFolder store p with
          | none =>
            exfalso
            obtain ⟨k, rfl⟩ : ∃ k, m = k + 1 := ⟨m - 1, by omega⟩
            rw [pnextN_succ_of_none store k
              (pnext_eq_none_of_find_none hf)] at hnreach
            exact Option.noConfusion hnreach
          | some next =>
            simp only [Bool.false_eq_true, if_false]
            have hnid : next.id = p := findFolder_id hf
            refine ih next (p :: visited) ?_ ?_ ?_ ?_ ?_ ?_
            · refine List.nodup_cons.mpr ⟨?_, hnd⟩
              simpa using hvis
            · intro v hv
              rcases List.mem_cons.mp hv with rfl | hv'
              · exact mem_folderIds_of_find hf
              · exact hsub v hv'
            · simp only [List.length_cons]
              omega
            · rw [hnid]
              exact hf
            · intro v hv
              rcases List.mem_cons.mp hv with rfl | hv'
              · exact ⟨0, by rw [hnid]; rfl⟩
              · obtain ⟨m', hm'⟩ := hback v hv'
                refine ⟨m' + 1, ?_⟩
                rw [hnid, pnextN_add store m' 1 v, hm']
                simpa using hone
            · exact ⟨m, hm0, by rw [hnid]; exact hnreach⟩

/-- A walk that exits with `pass` certifies that the parent chain of the
walked folder never reaches `folderId`. -/
theorem walkLoop_pass_not_reach (store : FolderStore) (folderId : Nat) :
    ∀ (fuel : Nat) (cur : FolderDoc) (visited : List Nat),
      walkLoop store folderId cur visited fuel = .pass →
      findFolder store cur.id = some cur →
      ∀ k, pnextN store (k + 1) cur.id ≠ some folderId := by
  intro fuel
  induction fuel with
  | zero =>
    intro cur visited hpass
    simp [walkLoop] at hpass
  | succ fuel ih =>
    intro cur visited hpass hfind k
    have hpn : pnext store cur.id = cur.parentFolder := by
      unfold pnext
      rw [hfind]
    unfold walkLoop at hpass
    cases hp : cur.parentFolder with
    | none =>
      rw [pnextN_succ_of_none store k (by rw [hpn, hp])]
      simp
    | some p =>
      rw [hp] at hpass
      dsimp only at hpass
      have hstep : pnext store cur.id = some p := by rw [hpn, hp]
      cases hvis : visited.contains p with
      | true =>
        rw [hvis] at hpass
        exact absurd hpass (by simp)
      | false =>
        rw [hvis] at hpass
        simp only [Bool.false_eq_true, if_false] at hpass
        cases hpf : p == folderId with
        | true =>
          rw [hpf] at hpass
          exact absurd hpass (by simp)
        | false =>
          rw [hpf] at hpass
          simp only [Bool.false_eq_true, if_false] at hpass
          have hpne : p ≠ folderId := by simpa using hpf
          rw [pnextN_succ_of_pnext store k hstep]
          cases hf : findFolder store p with
          | none =>
            cases k with
            | zero =>
              simp only [pnextN]
              intro hcontra
              exact hpne (Option.some.inj hcontra)
            | succ k =>
              rw [pnextN_succ_of_none store k
                (pnext_eq_none_of_find_none hf)]
              simp
          | some next =>
            rw [hf] at hpass
            have hnid : next.id = p := findFolder_id hf
            have hrec := ih next (p :: visited) hpass
              (by rw [hnid]; exact hf)
            cases k with
            | zero =>
              simp only [pnextN]
              intro hcontra
              exact hpne (Option.some.inj hcontra)
            | succ k =>
              have hk := hrec k
              rw [hnid] at hk
              exact hk

/-- Saving a folder update whose merged parent chain (in the old store)
never reaches the folder being updated keeps the store acyclic. -/
theorem acyclic_update (store : FolderStore) (folderId : Nat)
    (folder : FolderDoc) (body : FolderUpdateBody)
    (hfind : findFolder store folderId = some folder)
    (hacyc : AcyclicStore store)
    (hsafe : ∀ q, (applyFolderUpdate folder body).parentFolder = some q →
      ∀ k, pnextN store k q ≠ some folderId) :
    AcyclicStore (store.map fun d =>
      if d.id == folderId then applyFolderUpdate folder body else d) := by
  classical
  set s' := store.map fun d =>
    if d.id == folderId then applyFolderUpdate folder body else d with hs'
  have hchar := pnext_update store folderId folder body hfind
  have hagree : ∀ j, j ≠ folderId → pnext s' j = pnext store j := by
    intro j hj
    rw [hchar j, if_neg hj]
  have hxparent : pnext s' folderId =
      (applyFolderUpdate folder body).parentFolder := by
    rw [hchar folderId, if_pos rfl]
  intro i n hn hcyc
  by_cases hx : ∃ k, k < n ∧ pnextN s' k i = some folderId
  · obtain ⟨k, hkn, hkreach⟩ := hx
    have hrot : pnextN s' n folderId = some folderId :=
      pnextN_rotate s' hcyc hkreach (le_of_lt hkn)
    obtain ⟨m, rfl⟩ : ∃ m, n = m + 1 := ⟨n - 1, by omega⟩
    cases hq : (applyFolderUpdate folder body).parentFolder with
    | none =>
      rw [pnextN_succ_of_none s' m (by rw [hxparent, hq])] at hrot
      exact Option.noConfusion hrot
    | some q =>
      rw [pnextN_succ_of_pnext s' m (by rw [hxparent, hq])] at hrot
      have hex : ∃ t, pnextN s' t q = some folderId := ⟨m, hrot⟩
      have ht : pnextN s' (Nat.find hex) q = some folderId :=
        Nat.find_spec hex
      have hmin : ∀ u, u < Nat.find hex →
          pnextN s' u q ≠ some folderId := by
        intro u hu
        exact Nat.find_min hex hu
      have htransfer : pnextN s' (Nat.find hex) q =
          pnextN store (Nat.find hex) q :=
        pnextN_transfer_avoid store s' folderId hagree (Nat.find hex) q hmin
      rw [htransfer] at ht
      exact hsafe q hq (Nat.find hex) ht
  · push_neg at hx
    have htransfer : pnextN s' n i = pnextN store n i :=
      pnextN_transfer_avoid store s' folderId hagree n i
        (fun m hm => hx m hm)
    rw [htransfer] at hcyc
    exact hacyc i n hn hcyc

/-- A 200 from `PUT /:id` pins down what happened: the folder was found,
the new store is the single-document update, and whenever the body carried
a truthy parent id, that id differs from the folder's and the middleware
walked the parent's chain to a root without meeting the folder. -/
theorem putFolder_success_state (store : FolderStore)
    (callerId folderId : Nat) (body : FolderUpdateBody)
    (h200 : (putFolder store callerId folderId body).1.status = 200) :
    ∃ folder, findFolder store folderId = some folder ∧
      (putFolder store callerId folderId body).2 =
        store.map (fun d =>
          if d.id == folderId then applyFolderUpdate folder body else d) ∧
      ∀ p, truthyParent body.parentFolder = some p →
        p ≠ folderId ∧
        ∃ parentDoc, findFolder store p = some parentDoc ∧
          walkLoop store folderId parentDoc [] (store.length + 1) =
            .pass := by
  unfold putFolder at h200 ⊢
  cases hv : validateFolderStructure store callerId folderId
      (truthyParent body.parentFolder) with
  | selfParent => rw [hv] at h200; simp at h200
  | parentNotFound => rw [hv] at h200; simp at h200
  | notAuthorized => rw [hv] at h200; simp at h200
  | corruptCycle => rw [hv] at h200; simp at h200
  | circularRef => rw [hv] at h200; simp at h200
  | fuelExhausted => rw [hv] at h200; simp at h200
  | passThrough =>
    rw [hv] at h200
    dsimp only at h200 ⊢
    cases hff : findFolder store folderId with
    | none => rw [hff] at h200; simp at h200
    | some folder =>
      rw [hff] at h200
      dsimp only at h200 ⊢
      cases how : folder.owner == callerId with
      | false => rw [how] at h200; simp at h200
      | true =>
        rw [how] at h200
        simp only [Bool.not_true, Bool.false_eq_true, if_false] at h200 ⊢
        cases htp : truthyParent body.parentFolder with
        | none =>
          rw [htp] at h200
          refine ⟨folder, rfl, rfl, ?_⟩
          intro p hp
          exact Option.noConfusion hp
        | some p =>
          rw [htp] at h200
          dsimp only at h200 ⊢
          cases hpid : p == folderId with
          | true => rw [hpid] at h200; simp at h200
          | false =>
            rw [hpid] at h200
            simp only [Bool.false_eq_true, if_false] at h200 ⊢
            cases hfp : findFolder store p with
            | none => rw [hfp] at h200; simp at h200
            | some parentDoc =>
              rw [hfp] at h200
              dsimp only at h200 ⊢
              cases hop : parentDoc.owner == callerId with
              | false => rw [hop] at h200; simp at h200
              | true =>
                rw [hop] at h200
                simp only [Bool.not_true, Bool.false_eq_true, if_false]
                  at h200 ⊢
                cases hiw : inlineWalk store folderId parentDoc
                    (store.length + 1) with
                | circular => rw [hiw] at h200; simp at h200
                | lookupError => rw [hiw] at h200; simp at h200
                | outOfFuel => rw [hiw] at h200; simp at h200
                | ok =>
                  unfold validateFolderStructure at hv
                  rw [htp] at hv
                  dsimp only at hv
                  rw [hpid] at hv
                  simp only [Bool.false_eq_true, if_false] at hv
                  rw [hfp] at hv
                  dsimp only at hv
                  rw [hop] at hv
                  simp only [Bool.not_true, Bool.false_eq_true, if_false]
                    at hv
                  cases hw : walkLoop store folderId parentDoc []
                      (store.length + 1) with
                  | corruptCycle => rw [hw] at hv; simp at hv
                  | circularRef => rw [hw] at hv; simp at hv
                  | outOfFuel => rw [hw] at hv; simp at hv
                  | pass =>
                    refine ⟨folder, rfl, rfl, ?_⟩
                    intro p' hp'
                    cases Option.some.inj hp'
                    refine ⟨by simpa using hpid, parentDoc, hfp, hw⟩

/-- A store has at most as many distinct ids as documents. -/
theorem folderIds_dedup_le (store : FolderStore) :
    (folderIds store).dedup.length ≤ store.length := by
  have h1 := (List.dedup_sublist (folderIds store)).length_le
  have h2 : (folderIds store).length = store.length := by simp [folderIds]
  omega

/-- C3: on an acyclic store, (1) a `PUT /:id` whose new parent is the
folder itself or any folder whose ancestor chain contains the folder — a
descendant, at any depth — is answered 400 with the store untouched, and
(2) any `PUT /:id` that succeeds leaves the store acyclic, so no folder
ever becomes its own ancestor. -/
theorem c3_cycle_creating_reparent_rejected :
    (∀ (store : FolderStore) (callerId folderId : Nat)
        (body : FolderUpdateBody) (p : Nat),
      AcyclicStore store →
      truthyParent body.parentFolder = some p →
      (p = folderId ∨
        (∃ parentDoc, findFolder store p = some parentDoc ∧
          parentDoc.owner = callerId ∧
          ∃ n, 0 < n ∧ pnextN store n p = some folderId)) →
      (putFolder store callerId folderId body).1.status = 400 ∧
      (putFolder store callerId folderId body).2 = store) ∧
    (∀ (store : FolderStore) (callerId folderId : Nat)
        (body : FolderUpdateBody),
      AcyclicStore store →
      (putFolder store callerId folderId body).1.status = 200 →
      AcyclicStore (putFolder store callerId folderId body).2) := by
  constructor
  · intro store callerId folderId body p hacyc htp hbad
    have hval : validateFolderStructure store callerId folderId
        (truthyParent body.parentFolder) = .selfParent ∨
        validateFolderStructure store callerId folderId
          (truthyParent body.parentFolder) = .circularRef := by
      unfold validateFolderStructure
      rw [htp]
      dsimp only
      cases hpid : p == folderId with
      | true => left; simp
      | false =>
        right
        have hpne : p ≠ folderId := by simpa using hpid
        rcases hbad with rfl | ⟨parentDoc, hfp, howner, n, hn0, hreach⟩
        · exact absurd rfl hpne
        · rw [hfp]
          dsimp only
          have hob : (parentDoc.owner == callerId) = true := by
            simp [howner]
          rw [hob]
          simp only [Bool.not_true, Bool.false_eq_true, if_false]
          have hpdid : parentDoc.id = p := findFolder_id hfp
          have hwalk : walkLoop store folderId parentDoc []
              (store.length + 1) = .circularRef := by
            refine walkLoop_finds_target store folderId hacyc
              (store.length + 1) parentDoc [] List.nodup_nil (by simp)
              ?_ ?_ (by simp) ?_
            · have := folderIds_dedup_le store
              simp only [List.length_nil]
              omega
            · rw [hpdid]
              exact hfp
            · exact ⟨n, hn0, by rw [hpdid]; exact hreach⟩
          rw [hwalk]
    rcases hval with h | h
    · unfold putFolder
      rw [h]
      exact ⟨rfl, rfl⟩
    · unfold putFolder
      rw [h]
      exact ⟨rfl, rfl⟩
  · intro store callerId folderId body hacyc h200
    obtain ⟨folder, hff, hstate, hparent⟩ :=
      putFolder_success_state store callerId folderId body h200
    rw [hstate]
    refine acyclic_update store folderId folder body hff hacyc ?_
    intro q hq k hk
    cases hbp : body.parentFolder with
    | none =>
      have hq' : folder.parentFolder = some q := by
        simpa [applyFolderUpdate, hbp] using hq
      have hpn : pnext store folderId = some q := by
        unfold pnext
        rw [hff]
        exact hq'
      have hcyc : pnextN store (k + 1) folderId = some folderId := by
        rw [pnextN_succ_of_pnext store k hpn]
        exact hk
      exact hacyc folderId (k + 1) (Nat.succ_pos k) hcyc
    | some ob =>
      cases ob with
      | none =>
        have hnone : (applyFolderUpdate folder body).parentFolder = none := by
          simp [applyFolderUpdate, hbp]
        rw [hnone] at hq
        exact Option.noConfusion hq
      | some p =>
        have hsome : (applyFolderUpdate folder body).parentFolder =
            some p := by
          simp [applyFolderUpdate, hbp]
        have hpq : q = p := by
          have hq2 := hsome.symm.trans hq
          exact (Option.some.inj hq2).symm
        have hkp : pnextN store k p = some folderId := by
          rw [← hpq]
          exact hk
        have htp : truthyParent body.parentFolder = some p := by
          simp [truthyParent, hbp]
        obtain ⟨hpne, parentDoc, hfp, hwpass⟩ := hparent p htp
        have hpdid : parentDoc.id = p := findFolder_id hfp
        cases k with
        | zero =>
          have hpeq : p = folderId := by simpa [pnextN] using hkp
          exact hpne hpeq
        | succ k =>
          have hnr := walkLoop_pass_not_reach store folderId
            (store.length + 1) parentDoc [] hwpass
            (by rw [hpdid]; exact hfp) k
          rw [hpdid] at hnr
          exact hnr hkp

/-- The two-folder witness store (2 under 1) is acyclic. -/
theorem c3Store_acyclic : AcyclicStore c3Store := by
  have hp1 : pnext c3Store 1 = none := by decide
  have hp2 : pnext c3Store 2 = some 1 := by decide
  have hother : ∀ i, i ≠ 1 → i ≠ 2 → pnext c3Store i = none := by
    intro i h1 h2
    unfold pnext findFolder
    have hnone : List.find? (fun d => d.id == i) c3Store = none := by
      rw [List.find?_eq_none]
      intro d hd
      simp only [c3Store, List.mem_cons, List.not_mem_nil, or_false] at hd
      rcases hd with rfl | rfl
      · simp
        omega
      · simp
        omega
    rw [hnone]
  intro i n hn heq
  by_cases h1 : i = 1
  · subst h1
    obtain ⟨m, rfl⟩ : ∃ m, n = m + 1 := ⟨n - 1, by omega⟩
    rw [pnextN_succ_of_none _ m hp1] at heq
    exact Option.noConfusion heq
  · by_cases h2 : i = 2
    · subst h2
      obtain ⟨m, rfl⟩ : ∃ m, n = m + 1 := ⟨n - 1, by omega⟩
      rw [pnextN_succ_of_pnext _ m hp2] at heq
      cases m with
      | zero => simp [pnextN] at heq
      | succ m =>
        rw [pnextN_succ_of_none _ m hp1] at heq
        exact Option.noConfusion heq
    · obtain ⟨m, rfl⟩ : ∃ m, n = m + 1 := ⟨n - 1, by omega⟩
      rw [pnextN_succ_of_none _ m (hother i h1 h2)] at heq
      exact Option.noConfusion heq

/-- Witness for `c3_cycle_creating_reparent_rejected` on `c3Store`:
re-parenting folder 1 under its descendant 2 is answered 400 with the
store untouched, and a legitimate re-parent of folder 2 under folder 1
leaves the store acyclic. -/
theorem c3_cycle_creating_reparent_rejected_witness :
    ((putFolder c3Store 7 1
        ⟨none, none, some (some 2), none⟩).1.status = 400 ∧
      (putFolder c3Store 7 1
        ⟨none, none, some (some 2), none⟩).2 = c3Store) ∧
    AcyclicStore
      (putFolder c3Store 7 2 ⟨none, none, some (some 1), none⟩).2 :=
  ⟨c3_cycle_creating_reparent_rejected.1 c3Store 7 1
      ⟨none, none, some (some 2), none⟩ 2 c3Store_acyclic rfl
      (Or.inr ⟨{ id := 2, owner := 7, name := "Child", description := ""
                 parentFolder := some 1, isPublic := false },
        by decide, rfl, 1, by decide, by decide⟩),
   c3_cycle_creating_reparent_rejected.2 c3Store 7 2
      ⟨none, none, some (some 1), none⟩ c3Store_acyclic (by decide)⟩

end Mousa
